import Mathlib

/-!
Verification of the trends-analysis engine of the Okta security monitoring
dashboard (`src/trends_analyzer.py` and the `/api/trends/custom` route of
`dashboard.py`).

Modelling conventions:
* instants (`datetime`) are integers counting seconds on a single timeline;
  `timedelta(hours = h)` is `h * 3600`, `timedelta(days = d)` is `d * 86400`;
  `datetime.weekday()` (0 = Monday) is recovered from the day index, day 0
  (1970-01-01) being a Thursday;
* JSON numbers are exact rationals (`ℚ`); `dict.get(key, 0)` is `Option.getD`
  on an optional field; Python `round(x, 2)` is modelled on exact rationals;
* the file system is folded into the catalog: a catalog entry carries its
  parsed timestamp together with the outcome `_load_analysis` produces for
  its path (`none` when the JSON cannot be loaded);
* `datetime.strptime` (a library routine, not repository code) is an
  abstract parameter `parseTs : String → Option ℤ` of the catalog scan.
-/

namespace OktaTrends

/-- The `summary` block of one analysis JSON file.  Every field is optional:
the code reads each with `summary.get(key, 0)`. -/
structure AnalysisSummary where
  total_events : Option ℚ
  failed_logins : Option ℚ
  successful_logins : Option ℚ
  unique_users : Option ℚ
  login_success_rate : Option ℚ
deriving DecidableEq, Repr

/-- A catalog entry of `TrendsAnalyzer.analysis_files`: the timestamp parsed
from the file name, paired with the result `_load_analysis` yields for that
path (`none` when `json.load` or `open` fails). -/
abbrev FileEntry := ℤ × Option AnalysisSummary

/-- Python `round(x, 2)`, modelled on exact rationals. -/
def round2 (q : ℚ) : ℚ := (round (q * 100) : ℤ) / 100

/-- `TrendsAnalyzer._is_within_hours`: `cutoff = datetime.now() −
timedelta(hours = hours)`; the timestamp qualifies iff `timestamp >= cutoff`. -/
def isWithinHours (now ts hours : ℤ) : Bool :=
  decide (now - hours * 3600 ≤ ts)

/-- The `data_points` dictionary of a non-empty trend response: five parallel
per-snapshot metric sequences. -/
structure TrendSeries where
  total_events : List ℚ
  failed_logins : List ℚ
  successful_logins : List ℚ
  unique_users : List ℚ
  login_success_rate : List ℚ
deriving DecidableEq, Repr

/-- The `summary` dictionary of a non-empty trend response. -/
structure TrendStats where
  min_events : ℚ
  max_events : ℚ
  avg_events : ℚ
  min_failures : ℚ
  max_failures : ℚ
  avg_failures : ℚ
  data_points_count : ℕ
deriving DecidableEq, Repr

/-- The two shapes `get_trend_data` can return: the early-return dictionary of
the no-qualifying-files branch (whose `data_points` is a bare empty list and
whose `summary` maps the five metric names to lists), and the full series
dictionary of the normal branch. -/
inductive TrendResult where
  | emptyResult (trend_type : String) (data_points : List ℚ) (summary : TrendSeries)
  | series (trend_type : String) (timestamps : List ℤ) (data_points : TrendSeries)
      (summary : TrendStats)
deriving DecidableEq, Repr

/-- The `trend_type` field, present in both shapes. -/
def TrendResult.trendType : TrendResult → String
  | .emptyResult t _ _ => t
  | .series t _ _ _ => t

/-- The f-string `f"last_{hours}h"`. -/
def trendTypeStr (hours : ℤ) : String := "last_" ++ toString hours ++ "h"

/-- Python `min(l)` guarded by `if l else 0`. -/
def pyMin : List ℚ → ℚ
  | [] => 0
  | x :: xs => xs.foldl min x

/-- Python `max(l)` guarded by `if l else 0`. -/
def pyMax : List ℚ → ℚ
  | [] => 0
  | x :: xs => xs.foldl max x

/-- Python `round(sum(l) / len(l), 2) if l else 0`. -/
def pyAvg (l : List ℚ) : ℚ :=
  if l.isEmpty then 0 else round2 (l.sum / l.length)

/-- The extraction loop of `get_trend_data`: walk the qualifying entries in
order; a `None` load is skipped with `continue`; otherwise the timestamp and
the five metrics (rate rounded to 2 decimals) are appended to six parallel
lists. -/
def extractLoop : List FileEntry → List ℤ × TrendSeries
  | [] => ([], ⟨[], [], [], [], []⟩)
  | (ts, content) :: rest =>
    let r := extractLoop rest
    match content with
    | none => r
    | some a =>
      (ts :: r.1,
       ⟨a.total_events.getD 0 :: r.2.total_events,
        a.failed_logins.getD 0 :: r.2.failed_logins,
        a.successful_logins.getD 0 :: r.2.successful_logins,
        a.unique_users.getD 0 :: r.2.unique_users,
        round2 (a.login_success_rate.getD 0) :: r.2.login_success_rate⟩)

/-- The `summary` dictionary built at the end of `get_trend_data`: min/max/avg
of the events and failures lists, and `len(timestamps)` as the count. -/
def statsOf (timestamps : List ℤ) (s : TrendSeries) : TrendStats :=
  ⟨pyMin s.total_events, pyMax s.total_events, pyAvg s.total_events,
   pyMin s.failed_logins, pyMax s.failed_logins, pyAvg s.failed_logins,
   timestamps.length⟩

/-- The `relevant_files` comprehension of `get_trend_data`. -/
def relevantFiles (now hours : ℤ) (files : List FileEntry) : List FileEntry :=
  files.filter (fun e => isWithinHours now e.1 hours)

/-- `TrendsAnalyzer.get_trend_data`.  `now` stands for `datetime.now()` and
`files` for `self.analysis_files`. -/
def getTrendData (now hours : ℤ) (files : List FileEntry) : TrendResult :=
  let relevant := relevantFiles now hours files
  if relevant.isEmpty then
    .emptyResult (trendTypeStr hours) [] ⟨[], [], [], [], []⟩
  else
    let r := extractLoop relevant
    .series (trendTypeStr hours) r.1 r.2 (statsOf r.1 r.2)

/-- `TrendsAnalyzer.get_7day_trends`: `get_trend_data(hours=168)`. -/
def get7dayTrends (now : ℤ) (files : List FileEntry) : TrendResult :=
  getTrendData now 168 files

/-- `TrendsAnalyzer.get_30day_trends`: `get_trend_data(hours=720)`. -/
def get30dayTrends (now : ℤ) (files : List FileEntry) : TrendResult :=
  getTrendData now 720 files

/-- `datetime.weekday()` of the instant `now`: 0 = Monday … 6 = Sunday;
day 0 of the timeline (1970-01-01) is a Thursday, hence the offset 3.
Integer division on `ℤ` floors for the positive divisor, as Python does. -/
def weekday (now : ℤ) : ℤ := (now / 86400 + 3) % 7

/-- `current_week_start = now - timedelta(days=now.weekday())`: the Monday of
the current week at `now`'s time of day. -/
def currentWeekStart (now : ℤ) : ℤ := now - weekday now * 86400

/-- `last_week_start = current_week_start - timedelta(days=7)`. -/
def lastWeekStart (now : ℤ) : ℤ := currentWeekStart now - 7 * 86400

/-- The `current_week_files` comprehension of `get_week_over_week`:
`last_week_start <= ts <= now`. -/
def currentWeekFiles (now : ℤ) (files : List FileEntry) : List FileEntry :=
  files.filter (fun e => decide (lastWeekStart now ≤ e.1 ∧ e.1 ≤ now))

/-- The `last_week_files` comprehension of `get_week_over_week`:
`two_weeks_ago <= ts < last_week_start` with `two_weeks_ago = now - 14d`. -/
def lastWeekFiles (now : ℤ) (files : List FileEntry) : List FileEntry :=
  files.filter (fun e => decide (now - 14 * 86400 ≤ e.1 ∧ e.1 < lastWeekStart now))

/-- The accumulation loop of `aggregate_metrics`: walk the bucket in order,
skip entries whose load yields `None`, and append the four metrics of each
loaded summary to four parallel lists. -/
def wowLoop : List FileEntry → List ℚ × List ℚ × List ℚ × List ℚ
  | [] => ([], [], [], [])
  | (_, content) :: rest =>
    let r := wowLoop rest
    match content with
    | none => r
    | some a =>
      (a.total_events.getD 0 :: r.1,
       a.failed_logins.getD 0 :: r.2.1,
       a.successful_logins.getD 0 :: r.2.2.1,
       a.login_success_rate.getD 0 :: r.2.2.2)

/-- The aggregate a week bucket reduces to. -/
structure WoWMetrics where
  total_events : ℚ
  failed_logins : ℚ
  successful_logins : ℚ
  avg_success_rate : ℚ
deriving DecidableEq, Repr

/-- `aggregate_metrics` (local function of `get_week_over_week`): zero record
for an empty bucket; otherwise sum events, failures and successes, and average
the stored per-snapshot rates, rounded to 2 decimals (`0` when every load
failed and the rates list is empty). -/
def aggregate_metrics (files : List FileEntry) : WoWMetrics :=
  if files.isEmpty then ⟨0, 0, 0, 0⟩
  else
    let r := wowLoop files
    ⟨r.1.sum, r.2.1.sum, r.2.2.1.sum,
     if r.2.2.2.isEmpty then 0 else round2 (r.2.2.2.sum / r.2.2.2.length)⟩

/-- `calc_change` (local function of `get_week_over_week`): percentage change
with a sentinel for `previous == 0`, direction derived from the sign of the
resulting `pct`. -/
def calc_change (current previous : ℚ) : ℚ × String :=
  let pct :=
    if previous = 0 then (if current = 0 then 0 else 100)
    else round2 ((current - previous) / previous * 100)
  let direction := if pct > 0 then "up" else if pct < 0 then "down" else "stable"
  (pct, direction)

/-- The dictionary `get_week_over_week` returns. -/
structure WoWResult where
  current_week : WoWMetrics
  last_week : WoWMetrics
  events_change : ℚ × String
  failures_change : ℚ × String
  success_rate_change : ℚ × String
deriving DecidableEq, Repr

/-- `TrendsAnalyzer.get_week_over_week`. -/
def getWeekOverWeek (now : ℤ) (files : List FileEntry) : WoWResult :=
  let current_metrics := aggregate_metrics (currentWeekFiles now files)
  let last_metrics := aggregate_metrics (lastWeekFiles now files)
  ⟨current_metrics, last_metrics,
   calc_change current_metrics.total_events last_metrics.total_events,
   calc_change current_metrics.failed_logins last_metrics.failed_logins,
   calc_change current_metrics.avg_success_rate last_metrics.avg_success_rate⟩

/-- The glob pattern `analysis_results_*.json` of `_get_analysis_files`. -/
def matchesPattern (name : String) : Bool :=
  name.startsWith "analysis_results_" && name.endsWith ".json"

/-- `file_path.stem` followed by `stem.replace("analysis_results_", "")`
for a name matching the pattern (so ending in `.json`, of length 5). -/
def stripName (name : String) : String :=
  (name.dropRight 5).replace "analysis_results_" ""

/-- `TrendsAnalyzer._get_analysis_files`: keep the directory entries matching
the glob, attempt to parse a timestamp out of each name (`parseTs` stands for
`datetime.strptime(·, "%Y%m%d_%H%M%S")`, a library routine); names that fail
to parse are logged and skipped, never raised; finally sort by timestamp. -/
def getAnalysisFiles (parseTs : String → Option ℤ) (dirFiles : List String) :
    List (ℤ × String) :=
  let files := (dirFiles.filter matchesPattern).filterMap
    (fun name => (parseTs (stripName name)).map (fun dt => (dt, name)))
  files.mergeSort (fun a b => decide (a.1 ≤ b.1))

/-- An HTTP response of the Flask boundary layer: a JSON body with a status
code, or an error JSON with a status code. -/
inductive ApiResponse where
  | ok (body : TrendResult) (status : ℕ)
  | err (msg : String) (status : ℕ)
deriving DecidableEq, Repr

/-- The `/api/trends/custom` route handler `get_custom_trends` of
`dashboard.py`: reject `hours` outside `[1, 8760]` with a 400 before the
engine is ever invoked; otherwise delegate to `get_trend_data`. -/
def getCustomTrends (now hours : ℤ) (files : List FileEntry) : ApiResponse :=
  if hours < 1 ∨ hours > 8760 then .err "Hours must be between 1 and 8760" 400
  else .ok (getTrendData now hours files) 200

/-! ### Helper lemmas -/

/-- Evaluate `round2` at a concrete rational by bracketing `q * 100 + 1/2`. -/
lemma round2_eq_of (q : ℚ) (n : ℤ) (h1 : (n : ℚ) ≤ q * 100 + 1 / 2)
    (h2 : q * 100 + 1 / 2 < (n : ℚ) + 1) : round2 q = (n : ℚ) / 100 := by
  unfold round2
  rw [round_eq, Int.floor_eq_iff.mpr ⟨h1, h2⟩]

/-- A percentage whose magnitude is below half of the last kept decimal
rounds to zero. -/
lemma round2_eq_zero (q : ℚ) (h : |q| < 1 / 200) : round2 q = 0 := by
  obtain ⟨hl, hr⟩ := abs_lt.mp h
  have h0 : round2 q = ((0 : ℤ) : ℚ) / 100 :=
    round2_eq_of q 0 (by push_cast; linarith) (by push_cast; linarith)
  simpa using h0

/-! ### C6: the 7-day and 30-day presets delegate to the generic window -/

/-- C6: for every catalog state and instant, `get_7day_trends()` returns
exactly `get_trend_data(168)` and `get_30day_trends()` exactly
`get_trend_data(720)`; both are definitional delegations with no separate
code path. -/
theorem c6_presets_delegate (now : ℤ) (files : List FileEntry) :
    get7dayTrends now files = getTrendData now 168 files ∧
    get30dayTrends now files = getTrendData now 720 files :=
  ⟨rfl, rfl⟩

/-! ### C4: the window is an inclusive lower bound with no upper bound -/

/-- C4: for every positive hour count and every catalog, the window of
`get_trend_data` contains exactly the entries whose timestamp is at least
`now - hours`: the lower bound is inclusive and there is no upper bound. -/
theorem c4_window_membership (hours : ℤ) (_hpos : 0 < hours) (now : ℤ)
    (files : List FileEntry) (e : FileEntry) :
    e ∈ relevantFiles now hours files ↔ e ∈ files ∧ now - hours * 3600 ≤ e.1 := by
  simp [relevantFiles, List.mem_filter, isWithinHours]

/-- Concrete instance of `c4_window_membership`: with `now = 0` and
`hours = 1`, an entry stamped 5 seconds in the future of `now` still
qualifies (no upper bound), its timestamp being `≥ now - 3600`. -/
theorem c4_window_membership_witness :
    ((5 : ℤ), (none : Option AnalysisSummary)) ∈
      relevantFiles 0 1 [((5 : ℤ), (none : Option AnalysisSummary))] :=
  (c4_window_membership 1 (by norm_num) 0 _ _).mpr ⟨by simp, by norm_num⟩

/-! ### C3: percentage change and direction -/

/-- C3: `calc_change` returns `(0, "stable")` when both values are zero,
`(100, "up")` when growing from zero, and otherwise the rounded relative
change in percent, its direction read off the sign of the rounded value. -/
theorem c3_calc_change_cases (current previous : ℚ) :
    (previous = 0 ∧ current = 0 → calc_change current previous = (0, "stable")) ∧
    (previous = 0 ∧ 0 < current → calc_change current previous = (100, "up")) ∧
    (previous ≠ 0 →
      calc_change current previous =
        (round2 ((current - previous) / previous * 100),
         if 0 < round2 ((current - previous) / previous * 100) then "up"
         else if round2 ((current - previous) / previous * 100) < 0 then "down"
         else "stable")) := by
  refine ⟨fun h => ?_, fun h => ?_, fun h => ?_⟩
  · obtain ⟨hp, hc⟩ := h
    norm_num [calc_change, hp, hc]
  · obtain ⟨hp, hc⟩ := h
    norm_num [calc_change, hp, hc.ne']
  · simp only [calc_change, if_neg h]

/-- Concrete instances of `c3_calc_change_cases`: the two sentinel cases and
the generic case `previous = 10`, `current = 5`, whose change is `-50`. -/
theorem c3_calc_change_cases_witness :
    calc_change 0 0 = (0, "stable") ∧ calc_change 5 0 = (100, "up") ∧
    calc_change 5 10 = (-50, "down") := by
  refine ⟨(c3_calc_change_cases 0 0).1 ⟨rfl, rfl⟩,
          (c3_calc_change_cases 5 0).2.1 ⟨rfl, by norm_num⟩, ?_⟩
  have h := (c3_calc_change_cases 5 10).2.2 (by norm_num)
  have hr : round2 (((5 : ℚ) - 10) / 10 * 100) = -50 := by
    have := round2_eq_of (((5 : ℚ) - 10) / 10 * 100) (-5000) (by norm_num) (by norm_num)
    rw [this]; norm_num
  rw [h, hr]
  norm_num

/-! ### C10: a sub-half-cent change is reported as stable -/

/-- C10: with `previous ≠ 0`, the direction is computed from the rounded
percentage; when the raw percentage is smaller than 0.005 in magnitude the
rounded value is `0` and `calc_change` reports `(0, "stable")` although the
two values differ. -/
theorem c10_tiny_change_stable (current previous : ℚ) (hp : previous ≠ 0)
    (_hne : current ≠ previous)
    (h : |(current - previous) / previous * 100| < 1 / 200) :
    calc_change current previous = (0, "stable") := by
  have h0 := round2_eq_zero _ h
  norm_num [calc_change, hp, h0]

/-- Concrete instance of `c10_tiny_change_stable`: growing from 100000 to
100001 is a raw change of 0.001 percent, reported as `(0, "stable")`. -/
theorem c10_tiny_change_stable_witness :
    calc_change 100001 100000 = (0, "stable") :=
  c10_tiny_change_stable 100001 100000 (by norm_num) (by norm_num)
    (by rw [abs_lt]; constructor <;> norm_num)

/-! ### C9: hour validation lives in the boundary layer only -/

/-- C9: an `hours` outside `[1, 8760]` is answered by the route handler with
a 400 error before the engine runs; in range the handler returns the engine's
result with a 200; and the engine itself validates nothing — for every
`hours` whatsoever it produces a normal trend result labelled with that
hour count. -/
theorem c9_boundary_validation (now hours : ℤ) (files : List FileEntry) :
    ((hours < 1 ∨ hours > 8760) →
      getCustomTrends now hours files =
        ApiResponse.err "Hours must be between 1 and 8760" 400) ∧
    (1 ≤ hours → hours ≤ 8760 →
      getCustomTrends now hours files =
        ApiResponse.ok (getTrendData now hours files) 200) ∧
    (getTrendData now hours files).trendType = trendTypeStr hours := by
  refine ⟨fun h => by simp [getCustomTrends, h], fun h1 h2 => ?_, ?_⟩
  · have h : ¬(hours < 1 ∨ hours > 8760) := by omega
    simp [getCustomTrends, h]
  · unfold getTrendData
    by_cases h : (relevantFiles now hours files).isEmpty <;>
      simp [h, TrendResult.trendType]

/-- Concrete instances of `c9_boundary_validation`: `hours = 9000` is
rejected with a 400 while the engine still produces a `last_9000h` result;
`hours = 24` is served with a 200. -/
theorem c9_boundary_validation_witness :
    getCustomTrends 0 9000 [] = ApiResponse.err "Hours must be between 1 and 8760" 400 ∧
    (getTrendData 0 9000 []).trendType = trendTypeStr 9000 ∧
    getCustomTrends 0 24 [] = ApiResponse.ok (getTrendData 0 24 []) 200 :=
  ⟨(c9_boundary_validation 0 9000 []).1 (Or.inr (by norm_num)),
   (c9_boundary_validation 0 9000 []).2.2,
   (c9_boundary_validation 0 24 []).2.1 (by norm_num) (by norm_num)⟩

/-! ### C1: the week-over-week buckets -/

/-- C1 counterexample: at the instant 432000 (a Tuesday) the claimed
current-week bucket `[now - 7d, now]` excludes a snapshot stamped -200000,
yet `get_week_over_week` places that snapshot in its current-week bucket:
the buckets are anchored to the Monday of the previous week, not to
`now - 7d`. -/
theorem c1_counterexample :
    ¬(currentWeekFiles 432000 [((-200000 : ℤ), (none : Option AnalysisSummary))] =
      [((-200000 : ℤ), (none : Option AnalysisSummary))].filter
        (fun e => decide (432000 - 7 * 86400 ≤ e.1 ∧ e.1 ≤ 432000))) := by
  decide

/-- C1 amended: `get_week_over_week` splits snapshots at the Monday of the
previous week carried to `now`'s time of day, `lastWeekStart now =
now - (weekday now + 7) days`: the current-week bucket is the closed interval
`[lastWeekStart now, now]`, the previous-week bucket the half-open interval
`[now - 14d, lastWeekStart now)`, so no snapshot lands in both buckets and
every snapshot inside `[now - 14d, now]` lands in exactly one. -/
theorem c1_week_buckets (now : ℤ) (files : List FileEntry) (e : FileEntry)
    (he : e ∈ files) :
    (e ∈ currentWeekFiles now files ↔ lastWeekStart now ≤ e.1 ∧ e.1 ≤ now) ∧
    (e ∈ lastWeekFiles now files ↔
      now - 14 * 86400 ≤ e.1 ∧ e.1 < lastWeekStart now) ∧
    ¬(e ∈ currentWeekFiles now files ∧ e ∈ lastWeekFiles now files) ∧
    (now - 14 * 86400 ≤ e.1 → e.1 ≤ now →
      (e ∈ currentWeekFiles now files ∨ e ∈ lastWeekFiles now files)) := by
  have hc : e ∈ currentWeekFiles now files ↔ lastWeekStart now ≤ e.1 ∧ e.1 ≤ now := by
    simp [currentWeekFiles, List.mem_filter, he]
  have hl : e ∈ lastWeekFiles now files ↔
      now - 14 * 86400 ≤ e.1 ∧ e.1 < lastWeekStart now := by
    simp [lastWeekFiles, List.mem_filter, he]
  refine ⟨hc, hl, ?_, ?_⟩
  · rintro ⟨h1, h2⟩
    have hb1 := (hc.mp h1).1
    have hb2 := (hl.mp h2).2
    omega
  · intro h1 h2
    by_cases hb : lastWeekStart now ≤ e.1
    · exact Or.inl (hc.mpr ⟨hb, h2⟩)
    · exact Or.inr (hl.mpr ⟨h1, by omega⟩)

/-- Concrete instance of `c1_week_buckets`: the snapshot stamped -200000 is
in the current-week bucket of the instant 432000 because it is at or after
`lastWeekStart 432000 = -259200`. -/
theorem c1_week_buckets_witness :
    ((-200000 : ℤ), (none : Option AnalysisSummary)) ∈
      currentWeekFiles 432000 [((-200000 : ℤ), (none : Option AnalysisSummary))] :=
  ((c1_week_buckets 432000 [((-200000 : ℤ), (none : Option AnalysisSummary))]
    ((-200000 : ℤ), (none : Option AnalysisSummary)) (by simp)).1).mpr (by decide)

/-! ### C2: the empty-window response -/

/-- C2 counterexample: on an empty catalog `get_trend_data` does not return
the non-empty response shape with empty sequences and zeroed aggregates; it
returns the distinct early-return dictionary (no `timestamps` key, a bare
list as `data_points`, metric-name-to-list `summary`). -/
theorem c2_counterexample :
    getTrendData 0 1 [] ≠
      TrendResult.series (trendTypeStr 1) [] ⟨[], [], [], [], []⟩
        ⟨0, 0, 0, 0, 0, 0, 0⟩ := by
  decide

/-- C2 amended: whenever no catalog entry falls inside the window (in
particular on an empty catalog), `get_trend_data` still returns successfully
— never a failure — but with the early-return shape: the `trend_type` label,
a bare empty `data_points` list, and a `summary` mapping the five metric
names to empty lists; this shape carries no `timestamps` key and no zeroed
min/max/avg aggregates. -/
theorem c2_empty_window (now hours : ℤ) (files : List FileEntry)
    (h : relevantFiles now hours files = []) :
    getTrendData now hours files =
      TrendResult.emptyResult (trendTypeStr hours) [] ⟨[], [], [], [], []⟩ := by
  unfold getTrendData
  simp [h]

/-- Concrete instance of `c2_empty_window`: the empty catalog. -/
theorem c2_empty_window_witness :
    getTrendData 0 1 [] =
      TrendResult.emptyResult (trendTypeStr 1) [] ⟨[], [], [], [], []⟩ :=
  c2_empty_window 0 1 [] rfl

/-! ### C5: bucket aggregation averages the stored rates -/

/-- The events of the successfully loaded summaries of a bucket. -/
def eventsOf (files : List FileEntry) : List ℚ :=
  (files.filterMap (fun e => e.2)).map (fun a => a.total_events.getD 0)

/-- The failed-login counts of the successfully loaded summaries. -/
def failuresOf (files : List FileEntry) : List ℚ :=
  (files.filterMap (fun e => e.2)).map (fun a => a.failed_logins.getD 0)

/-- The successful-login counts of the successfully loaded summaries. -/
def successesOf (files : List FileEntry) : List ℚ :=
  (files.filterMap (fun e => e.2)).map (fun a => a.successful_logins.getD 0)

/-- The stored per-snapshot success rates of the successfully loaded
summaries. -/
def ratesOf (files : List FileEntry) : List ℚ :=
  (files.filterMap (fun e => e.2)).map (fun a => a.login_success_rate.getD 0)

/-- The accumulation loop of `aggregate_metrics` builds exactly the four
per-metric projections of the loaded summaries, in order. -/
lemma wowLoop_eq (l : List FileEntry) :
    wowLoop l = (eventsOf l, failuresOf l, successesOf l, ratesOf l) := by
  induction l with
  | nil => rfl
  | cons e rest ih =>
    obtain ⟨ts, content⟩ := e
    cases content <;>
      simp [wowLoop, eventsOf, failuresOf, successesOf, ratesOf,
        List.filterMap_cons, ih]

/-- A two-snapshot bucket whose stored rates (50 and 100) weight the
snapshots equally although their event totals (10 and 2) do not. -/
def demoBucket : List FileEntry :=
  [((0 : ℤ), some ⟨some 10, some 5, some 5, some 0, some 50⟩),
   ((0 : ℤ), some ⟨some 2, some 0, some 2, some 0, some 100⟩)]

/-- C5: for every bucket with at least one loaded snapshot,
`aggregate_metrics` sums `total_events`, `failed_logins` and
`successful_logins`, while `avg_success_rate` is the arithmetic mean of the
stored per-snapshot rates rounded to 2 decimals; and on `demoBucket` that
mean (75) differs from the rate recomputed from the summed successes and
events (58.33), so the average is not a recomputation. -/
theorem c5_avg_is_mean_of_rates :
    (∀ files : List FileEntry, ratesOf files ≠ [] →
      (aggregate_metrics files).total_events = (eventsOf files).sum ∧
      (aggregate_metrics files).failed_logins = (failuresOf files).sum ∧
      (aggregate_metrics files).successful_logins = (successesOf files).sum ∧
      (aggregate_metrics files).avg_success_rate =
        round2 ((ratesOf files).sum / (ratesOf files).length)) ∧
    (aggregate_metrics demoBucket).avg_success_rate ≠
      round2 ((aggregate_metrics demoBucket).successful_logins /
        (aggregate_metrics demoBucket).total_events * 100) := by
  have hU : ∀ files : List FileEntry, ratesOf files ≠ [] →
      (aggregate_metrics files).total_events = (eventsOf files).sum ∧
      (aggregate_metrics files).failed_logins = (failuresOf files).sum ∧
      (aggregate_metrics files).successful_logins = (successesOf files).sum ∧
      (aggregate_metrics files).avg_success_rate =
        round2 ((ratesOf files).sum / (ratesOf files).length) := by
    intro files hne
    have hfe : ¬files.isEmpty = true := by
      rw [List.isEmpty_iff]
      rintro rfl
      exact hne rfl
    have hre : ¬(ratesOf files).isEmpty = true := by
      rw [List.isEmpty_iff]
      exact hne
    unfold aggregate_metrics
    rw [if_neg hfe, wowLoop_eq]
    exact ⟨rfl, rfl, rfl, if_neg hre⟩
  refine ⟨hU, ?_⟩
  have hr : ratesOf demoBucket = [50, 100] := by
    simp [ratesOf, demoBucket, List.filterMap_cons]
  have hsx : successesOf demoBucket = [5, 2] := by
    simp [successesOf, demoBucket, List.filterMap_cons]
  have hev : eventsOf demoBucket = [10, 2] := by
    simp [eventsOf, demoBucket, List.filterMap_cons]
  obtain ⟨h1, h2, h3, h4⟩ := hU demoBucket (by simp [hr])
  rw [h4, h3, h1]
  have hx : (ratesOf demoBucket).sum / ((ratesOf demoBucket).length : ℚ) = 75 := by
    rw [hr]
    norm_num
  have hy : (successesOf demoBucket).sum / (eventsOf demoBucket).sum * 100 =
      (175 : ℚ) / 3 := by
    rw [hsx, hev]
    norm_num
  rw [hx, hy]
  have h75 : round2 (75 : ℚ) = 75 := by
    have := round2_eq_of (75 : ℚ) 7500 (by norm_num) (by norm_num)
    rw [this]; norm_num
  have hrc : round2 ((175 : ℚ) / 3) = 5833 / 100 := by
    have := round2_eq_of ((175 : ℚ) / 3) 5833 (by norm_num) (by norm_num)
    rw [this]; norm_num
  rw [h75, hrc]
  norm_num

/-- Concrete instance of `c5_avg_is_mean_of_rates`: on `demoBucket` the
aggregated average rate is the rounded mean of the stored rates. -/
theorem c5_avg_is_mean_of_rates_witness :
    (aggregate_metrics demoBucket).avg_success_rate =
      round2 ((ratesOf demoBucket).sum / (ratesOf demoBucket).length) :=
  (c5_avg_is_mean_of_rates.1 demoBucket
    (by simp [ratesOf, demoBucket, List.filterMap_cons])).2.2.2

/-! ### C7: the catalog scan -/

/-- The length of a `filterMap` is the number of inputs the function
accepts. -/
lemma length_filterMap_eq_countP {α β : Type} (f : α → Option β) (l : List α) :
    (l.filterMap f).length = l.countP (fun x => (f x).isSome) := by
  induction l with
  | nil => rfl
  | cons x xs ih =>
    cases hfx : f x <;>
      simp [List.filterMap_cons, hfx, List.countP_cons, ih]

/-- C7: for every parse function and directory listing, the catalog scan
yields a list sorted ascending by timestamp; it is a permutation of the
pattern-matching directory entries whose stripped name parses (unparsable
names are dropped, none raises); and its length is the number of
validly-named files. -/
theorem c7_catalog_scan (parseTs : String → Option ℤ) (dirFiles : List String) :
    List.Pairwise (fun a b : ℤ × String => a.1 ≤ b.1)
      (getAnalysisFiles parseTs dirFiles) ∧
    (getAnalysisFiles parseTs dirFiles).Perm
      ((dirFiles.filter matchesPattern).filterMap
        (fun name => (parseTs (stripName name)).map (fun dt => (dt, name)))) ∧
    (getAnalysisFiles parseTs dirFiles).length =
      (dirFiles.filter matchesPattern).countP
        (fun name => (parseTs (stripName name)).isSome) := by
  refine ⟨?_, ?_, ?_⟩
  · have hs : (getAnalysisFiles parseTs dirFiles).Pairwise
        (fun a b : ℤ × String => decide (a.1 ≤ b.1) = true) :=
      List.sorted_mergeSort
        (fun a b c hab hbc => by
          simp only [decide_eq_true_eq] at *
          exact le_trans hab hbc)
        (fun a b => by simpa using le_total a.1 b.1) _
    exact hs.imp (fun h => by simpa using h)
  · exact List.mergeSort_perm _ _
  · unfold getAnalysisFiles
    rw [List.length_mergeSort, length_filterMap_eq_countP]
    simp

/-! ### C8: failed loads are skipped, statistics cover loaded entries only -/

/-- The qualifying entries whose load succeeded, paired with their summary. -/
def loadedOf (l : List FileEntry) : List (ℤ × AnalysisSummary) :=
  l.filterMap (fun e => e.2.map (fun a => (e.1, a)))

/-- The per-metric series the loaded entries give rise to, in order. -/
def seriesOfLoaded (loaded : List (ℤ × AnalysisSummary)) : TrendSeries :=
  ⟨loaded.map (fun e => e.2.total_events.getD 0),
   loaded.map (fun e => e.2.failed_logins.getD 0),
   loaded.map (fun e => e.2.successful_logins.getD 0),
   loaded.map (fun e => e.2.unique_users.getD 0),
   loaded.map (fun e => round2 (e.2.login_success_rate.getD 0))⟩

/-- The extraction loop of `get_trend_data` produces exactly the timestamps
and per-metric series of the loaded entries, skipping failed loads. -/
lemma extractLoop_eq (l : List FileEntry) :
    extractLoop l = ((loadedOf l).map Prod.fst, seriesOfLoaded (loadedOf l)) := by
  induction l with
  | nil => rfl
  | cons e rest ih =>
    obtain ⟨ts, content⟩ := e
    cases content <;>
      simp [extractLoop, loadedOf, seriesOfLoaded, List.filterMap_cons, ih]

/-- C8: on a non-empty window, `get_trend_data` returns the full series
shape built from the successfully loaded entries only — entries whose load
failed are silently skipped, never aborting — with `data_points_count` the
number of loaded entries and, when every load failed, an all-zero summary
(the averages being rounded means, `pyAvg`, over the loaded values). -/
theorem c8_partial_loads (now hours : ℤ) (files : List FileEntry)
    (hne : relevantFiles now hours files ≠ []) :
    getTrendData now hours files =
      TrendResult.series (trendTypeStr hours)
        ((loadedOf (relevantFiles now hours files)).map Prod.fst)
        (seriesOfLoaded (loadedOf (relevantFiles now hours files)))
        (statsOf ((loadedOf (relevantFiles now hours files)).map Prod.fst)
          (seriesOfLoaded (loadedOf (relevantFiles now hours files)))) ∧
    (statsOf ((loadedOf (relevantFiles now hours files)).map Prod.fst)
        (seriesOfLoaded (loadedOf (relevantFiles now hours files)))).data_points_count =
      (loadedOf (relevantFiles now hours files)).length ∧
    (loadedOf (relevantFiles now hours files) = [] →
      statsOf ((loadedOf (relevantFiles now hours files)).map Prod.fst)
        (seriesOfLoaded (loadedOf (relevantFiles now hours files))) =
        ⟨0, 0, 0, 0, 0, 0, 0⟩) := by
  refine ⟨?_, ?_, ?_⟩
  · unfold getTrendData
    rw [if_neg (by rw [List.isEmpty_iff]; exact hne), extractLoop_eq]
  · simp [statsOf]
  · intro h
    rw [h]
    rfl

/-- Concrete instance of `c8_partial_loads`: a window with a single entry
whose load failed yields an empty series with an all-zero summary, without
failing. -/
theorem c8_partial_loads_witness :
    getTrendData 0 1 [((0 : ℤ), (none : Option AnalysisSummary))] =
      TrendResult.series (trendTypeStr 1)
        (([] : List (ℤ × AnalysisSummary)).map Prod.fst)
        (seriesOfLoaded [])
        (statsOf (([] : List (ℤ × AnalysisSummary)).map Prod.fst)
          (seriesOfLoaded [])) := by
  have h := (c8_partial_loads 0 1 [((0 : ℤ), (none : Option AnalysisSummary))]
    (by decide)).1
  have hload : loadedOf (relevantFiles 0 1 [((0 : ℤ), (none : Option AnalysisSummary))]) =
      ([] : List (ℤ × AnalysisSummary)) := by decide
  rw [hload] at h
  exact h

end OktaTrends
